import Mathlib

/-!
Verification of the Game UI AI Backend (src/server/main.py).

The repository is a single FastAPI application with three stateless
generation endpoints (`/api/suggestions`, `/api/chat`, `/api/voice`).
Each handler branches on provider-client availability, and on the
provider path maps the provider call's outcome (content string, JSON
parse) to a typed response, substituting fixed fallback values on any
exception.

We embed each handler as a total Lean function of the request together
with two extra parameters replacing the external world:
  * `hasClient : Bool` — whether `get_openai_client()` returned a client
    (i.e. `OPENAI_API_KEY` is set and the library is importable);
  * a `call` outcome — `Except Unit v`, where `Except.error` stands for
    any exception raised during the provider call, content extraction or
    `json.loads`, and `Except.ok` carries the parsed value.
JSON values (the results of `json.loads`) are modelled by `JVal`, with
Python dictionaries as association lists (first binding wins, as Python
dicts cannot hold duplicate keys).  Numbers are modelled as integers;
Python `str()` on these values is modelled by `pyStr` (the `repr` of a
string inside a container is modelled without escape sequences, which no
claim depends on).  Python string slicing `s[:k]` is code-point based
and is modelled by `pyTrunc` (take on the character list).
-/

/-- A JSON value as produced by `json.loads`: null, booleans,
(integer) numbers, strings, arrays and objects. -/
inductive JVal where
  | jnull : JVal
  | jbool : Bool → JVal
  | jnum : Int → JVal
  | jstr : String → JVal
  | jarr : List JVal → JVal
  | jobj : List (String × JVal) → JVal

/-- Python dictionary lookup `d.get(k)`: first matching key, `None`
(here `none`) when absent. -/
def dictGet (kvs : List (String × JVal)) (k : String) : Option JVal :=
  match kvs with
  | [] => none
  | (k2, v) :: rest => if k2 = k then some v else dictGet rest k

/-- Python truthiness of a JSON value: `None`, `False`, `0`, `""`,
`[]` and the empty dict are falsy, everything else is truthy. -/
def pyTruthy : JVal → Bool
  | .jnull => false
  | .jbool b => b
  | .jnum n => n != 0
  | .jstr s => s != ""
  | .jarr xs => !xs.isEmpty
  | .jobj kvs => !kvs.isEmpty

mutual
/-- Python `repr` of a JSON value (strings with quotes; escape
sequences not modelled). -/
def pyRepr : JVal → String
  | .jnull => "None"
  | .jbool true => "True"
  | .jbool false => "False"
  | .jnum n => toString n
  | .jstr s => "'" ++ s ++ "'"
  | .jarr xs => "[" ++ pyReprItems xs ++ "]"
  | .jobj kvs => "\x7b" ++ pyReprPairs kvs ++ "\x7d"

/-- Comma-separated `repr`s of list items. -/
def pyReprItems : List JVal → String
  | [] => ""
  | [x] => pyRepr x
  | x :: y :: xs => pyRepr x ++ ", " ++ pyReprItems (y :: xs)

/-- Comma-separated `repr`s of dict entries. -/
def pyReprPairs : List (String × JVal) → String
  | [] => ""
  | [(k, v)] => "'" ++ k ++ "': " ++ pyRepr v
  | (k, v) :: p :: rest => "'" ++ k ++ "': " ++ pyRepr v ++ ", " ++ pyReprPairs (p :: rest)
end

/-- Python `str()` of a JSON value: the string itself for strings,
`repr` otherwise (`str(None) = "None"`, `str(True) = "True"`, ...). -/
def pyStr : JVal → String
  | .jstr s => s
  | v => pyRepr v

/-- Python code-point slicing `s[:k]`. -/
def pyTrunc (s : String) (k : Nat) : String := ⟨s.data.take k⟩

/-- A chat message `{role, content}` (pydantic `ChatMessage`). -/
structure ChatMessage where
  role : String
  content : String

/-- World events arrive as open dictionaries (`Dict[str, Any]`). -/
def PyDict := List (String × JVal)

/-- `SuggestionRequest {chat, world_events, n}` (`n` defaults to 4). -/
structure SuggestionRequest where
  chat : List ChatMessage
  world_events : List PyDict
  n : Int

/-- `SuggestionResponse {suggestions}`. -/
structure SuggestionResponse where
  suggestions : List String
deriving DecidableEq

/-- `ChatRequest {chat, world_events, player_message}`. -/
structure ChatRequest where
  chat : List ChatMessage
  world_events : List PyDict
  player_message : Option String

/-- `ChatResponse {reply}`. -/
structure ChatResponse where
  reply : String
deriving DecidableEq

/-- `VoiceRequest {transcript, chat, world_events}`. -/
structure VoiceRequest where
  transcript : String
  chat : List ChatMessage
  world_events : List PyDict

/-- The `{t, title, desc}` world-event triple built by `/api/voice`. -/
structure WorldEventOut where
  t : String
  title : String
  desc : String
deriving DecidableEq

/-- `VoiceResponse {world_event}`. -/
structure VoiceResponse where
  world_event : WorldEventOut
deriving DecidableEq

/-- The fixed ordered pool of canned suggestions (the local `base` list
of `_fallback_suggestions`), lifted to a top-level constant so theorems
can refer to it. -/
def suggestionPool : List String :=
  [ "等等，先别说话，听——你听见了吗？",
    "向东转移队伍，躲开风暴眼。",
    "把消息压下去，免得引起恐慌。",
    "也许我们低估了天空的影子…",
    "别抬头，风从北边变冷了。",
    "嘘，嗡鸣在墙后回响。" ]

/-- `_fallback_suggestions(n)`: `base[: max(1, min(n, len(base)))]`. -/
def fallback_suggestions (n : Int) : List String :=
  suggestionPool.take (max 1 (min n (suggestionPool.length : Int))).toNat

/-- `ev.get(k, d)` rendered through the f-string: `str` of the value
when the key is present, the default `d` otherwise. -/
def evStr (ev : PyDict) (k : String) (d : String) : String :=
  match dictGet ev k with
  | some v => pyStr v
  | none => d

/-- One line `- {t} · {title} · {desc}` of `_build_world_context`. -/
def renderEvent (ev : PyDict) : String :=
  "- " ++ evStr ev "t" "?" ++ " · " ++ evStr ev "title" "" ++ " · " ++ evStr ev "desc" ""

/-- `_build_world_context(world_events)`: the no-events marker on an
empty list, else the first 8 events rendered one line each, joined by
newlines. -/
def build_world_context (world_events : List PyDict) : String :=
  if world_events.isEmpty then "(无世界事件)"
  else String.intercalate "\n" ((world_events.take 8).map renderEvent)

/-- `POST /api/suggestions`.  `call` is the joint outcome of the
provider call, content extraction (`content or "{}"` already folded into
the parsed value) and `json.loads`; `Except.error` is any exception on
that path.  A parsed value that is not a dict raises `AttributeError`
at `data.get`, and a `suggestions` value that is absent or not a list
raises `ValueError`; both are caught by the handler's `except` and
produce the fallback. -/
def api_suggestions (req : SuggestionRequest) (hasClient : Bool)
    (call : Except Unit JVal) : SuggestionResponse :=
  let n : Int := max 1 (min 8 req.n)
  if hasClient = false then ⟨fallback_suggestions n⟩
  else
    match call with
    | .error _ => ⟨fallback_suggestions n⟩
    | .ok data =>
      match data with
      | .jobj kvs =>
        match dictGet kvs "suggestions" with
        | some (.jarr xs) => ⟨(xs.map (fun s => pyTrunc (pyStr s) 30)).take n.toNat⟩
        | _ => ⟨fallback_suggestions n⟩
      | _ => ⟨fallback_suggestions n⟩

/-- Python `x or d` on an optional string (`req.player_message or ""`):
the string when present and non-empty, else the default. -/
def pyOrStr (x : Option String) (d : String) : String :=
  match x with
  | some s => if s != "" then s else d
  | none => d

/-- `POST /api/chat`.  `call` carries `resp.choices[0].message.content`
(`none` models a `None` content, whose `.strip()` raises and is caught);
`Except.error` is any exception during the provider call. -/
def api_chat (req : ChatRequest) (hasClient : Bool)
    (call : Except Unit (Option String)) : ChatResponse :=
  let player_msg := pyOrStr req.player_message ""
  if hasClient = false then
    if player_msg != "" then ⟨"明白：" ++ player_msg ++ "。但命运仍在推进。"⟩
    else ⟨"我听见了，但风暴不会等人。"⟩
  else
    match call with
    | .error _ => ⟨"先稳住阵脚，按既定路线走。"⟩
    | .ok none => ⟨"先稳住阵脚，按既定路线走。"⟩
    | .ok (some s) => ⟨s.trim⟩

/-- `str(x or d)` for a voice field: `str` of the looked-up value when
it is truthy, the default string otherwise (`str` of a string literal
default is itself). -/
def strOrDefault (x : Option JVal) (d : String) : String :=
  match x with
  | some v => if pyTruthy v then pyStr v else d
  | none => d

/-- `POST /api/voice`.  `call` is the joint outcome of the provider
call and `json.loads` of the content (with `content or "{}"` folded
in); a parsed value that is not a dict raises `AttributeError` at
`data.get`, caught by the handler's `except`. -/
def api_voice (req : VoiceRequest) (hasClient : Bool)
    (call : Except Unit JVal) : VoiceResponse :=
  if hasClient = false then
    ⟨⟨"此刻", "低语如潮", "短暂的嗡鸣压过了争执，众人沉默片刻。"⟩⟩
  else
    match call with
    | .error _ =>
      ⟨⟨"此刻", "风停一瞬", "像是被谁按下了暂停键，所有人都稍稍屏住了气。"⟩⟩
    | .ok data =>
      match data with
      | .jobj kvs =>
        ⟨⟨strOrDefault (dictGet kvs "t") "此刻",
          strOrDefault (dictGet kvs "title") "微弱回声",
          strOrDefault (dictGet kvs "desc") "空气里浮起一阵细响，又迅速归于平静。"⟩⟩
      | _ =>
        ⟨⟨"此刻", "风停一瞬", "像是被谁按下了暂停键，所有人都稍稍屏住了气。"⟩⟩

/-- A copy of a SuggestionRequest with the count replaced. -/
def withN (req : SuggestionRequest) (m : Int) : SuggestionRequest :=
  ⟨req.chat, req.world_events, m⟩

/-! ## Helper lemmas -/

/-- The canned fallback is a prefix of the pool of length
`max 1 (min n 6)` (Int clamp), since the pool has 6 elements. -/
theorem fallback_suggestions_take (n : Int) :
    fallback_suggestions n = suggestionPool.take (max 1 (min n 6)).toNat := by
  have h6 : (suggestionPool.length : Int) = 6 := rfl
  unfold fallback_suggestions
  rw [h6]

/-- Every string in the canned pool is at most 30 characters. -/
theorem mem_suggestionPool_length {s : String} (hs : s ∈ suggestionPool) :
    s.length ≤ 30 := by
  fin_cases hs <;> decide

/-- Every string produced by the fallback is at most 30 characters. -/
theorem mem_fallback_length (n : Int) {s : String}
    (hs : s ∈ fallback_suggestions n) : s.length ≤ 30 := by
  apply mem_suggestionPool_length
  unfold fallback_suggestions at hs
  exact List.take_subset _ _ hs

/-- Code-point truncation bounds the character count. -/
theorem pyTrunc_length_le (s : String) (k : Nat) : (pyTrunc s k).length ≤ k := by
  show (s.data.take k).length ≤ k
  simp

/-- Every `/api/suggestions` response is either the canned fallback or
the truncated coercion of a provider-supplied list. -/
theorem api_suggestions_cases (req : SuggestionRequest) (hasClient : Bool)
    (call : Except Unit JVal) :
    (api_suggestions req hasClient call).suggestions
        = fallback_suggestions (max 1 (min 8 req.n))
    ∨ ∃ xs : List JVal,
        (api_suggestions req hasClient call).suggestions
          = (xs.map (fun s => pyTrunc (pyStr s) 30)).take (max 1 (min 8 req.n)).toNat := by
  cases hasClient
  · exact Or.inl rfl
  · rcases call with e | data
    · exact Or.inl rfl
    · cases data with
      | jobj kvs =>
        cases h : dictGet kvs "suggestions" with
        | none => exact Or.inl (by simp [api_suggestions, h])
        | some v =>
          cases v with
          | jarr xs => exact Or.inr ⟨xs, by simp [api_suggestions, h]⟩
          | jnull => exact Or.inl (by simp [api_suggestions, h])
          | jbool b => exact Or.inl (by simp [api_suggestions, h])
          | jnum m => exact Or.inl (by simp [api_suggestions, h])
          | jstr s => exact Or.inl (by simp [api_suggestions, h])
          | jobj kvs2 => exact Or.inl (by simp [api_suggestions, h])
      | jnull => exact Or.inl rfl
      | jbool b => exact Or.inl rfl
      | jnum m => exact Or.inl rfl
      | jstr s => exact Or.inl rfl
      | jarr xs => exact Or.inl rfl

/-! ## Claim theorems -/

/-- C1: for every request to any of the three generation endpoints on
the provider path, an exception from the provider call or the parse
(`Except.error`) yields the documented fallback value of that endpoint;
the handlers are total into their response types, so no exception
escapes as an HTTP 5xx. -/
theorem endpoints_absorb_provider_errors
    (sreq : SuggestionRequest) (creq : ChatRequest) (vreq : VoiceRequest) (e : Unit) :
    api_suggestions sreq true (Except.error e)
      = ⟨fallback_suggestions (max 1 (min 8 sreq.n))⟩
    ∧ api_chat creq true (Except.error e) = ⟨"先稳住阵脚，按既定路线走。"⟩
    ∧ api_voice vreq true (Except.error e)
      = ⟨⟨"此刻", "风停一瞬", "像是被谁按下了暂停键，所有人都稍稍屏住了气。"⟩⟩ :=
  ⟨rfl, rfl, rfl⟩

/-- C2: the handler behaves exactly as if the submitted `n` were
`max 1 (min 8 n)` — the effective count is the clamp, which always lies
in [1, 8]. -/
theorem suggestions_n_clamped (req : SuggestionRequest) (hasClient : Bool)
    (call : Except Unit JVal) :
    api_suggestions req hasClient call
      = api_suggestions (withN req (max 1 (min 8 req.n))) hasClient call
    ∧ 1 ≤ max 1 (min 8 req.n) ∧ max 1 (min 8 req.n) ≤ 8 := by
  have h : max 1 (min 8 (max 1 (min 8 req.n))) = max 1 (min 8 req.n) := by omega
  refine ⟨?_, by omega, by omega⟩
  simp only [api_suggestions, withN, h]

/-- C3 counterexample: with no provider client and submitted n = 0, the
response holds 1 suggestion, not min(0, 6) = 0. -/
theorem suggestions_count_counterexample :
    ¬ (((api_suggestions ⟨[], [], 0⟩ false (Except.error ())).suggestions.length : Int)
        = min (0 : Int) 6) := by decide

/-- C3 (amended): with no provider client, the response is exactly the
first `max 1 (min n 6)` elements of the fixed 6-element canned pool — a
prefix in pool order, without repetition — so it has `max 1 (min n 6)`
items (`min n 6` only when n ≥ 1), and the same n yields the identical
response for every call outcome. -/
theorem suggestions_fallback_pool (req : SuggestionRequest)
    (call call2 : Except Unit JVal) :
    (api_suggestions req false call).suggestions
      = suggestionPool.take (max 1 (min req.n 6)).toNat
    ∧ (api_suggestions req false call).suggestions.length
      = (max 1 (min req.n 6)).toNat
    ∧ (api_suggestions req false call).suggestions.Nodup
    ∧ api_suggestions req false call = api_suggestions req false call2 := by
  have harith : (max 1 (min (max 1 (min 8 req.n)) 6)).toNat
      = (max 1 (min req.n 6)).toNat := by omega
  have e1 : (api_suggestions req false call).suggestions
      = suggestionPool.take (max 1 (min req.n 6)).toNat := by
    show fallback_suggestions (max 1 (min 8 req.n)) = _
    rw [fallback_suggestions_take, harith]
  refine ⟨e1, ?_, ?_, rfl⟩
  · rw [e1, List.length_take]
    have h6 : suggestionPool.length = 6 := rfl
    rw [h6]
    omega
  · rw [e1]
    exact List.Sublist.nodup (List.take_sublist _ _) (by decide)

/-- C4: every string in every `/api/suggestions` response has length at
most 30 characters, on the provider path (coerced strings truncated to
30 code points) and on the fallback path (every pool string is short). -/
theorem suggestions_length_le_30 (req : SuggestionRequest) (hasClient : Bool)
    (call : Except Unit JVal) (s : String)
    (hs : s ∈ (api_suggestions req hasClient call).suggestions) :
    s.length ≤ 30 := by
  rcases api_suggestions_cases req hasClient call with h | ⟨xs, h⟩
  · rw [h] at hs
    exact mem_fallback_length _ hs
  · rw [h] at hs
    have hs2 := List.take_subset _ _ hs
    rcases List.mem_map.1 hs2 with ⟨x, -, rfl⟩
    exact pyTrunc_length_le _ _

/-- C4 witness: a concrete response string, and its length bound via the
theorem. -/
theorem suggestions_length_le_30_witness :
    ("嘘，嗡鸣在墙后回响。" : String)
        ∈ (api_suggestions ⟨[], [], 8⟩ false (Except.error ())).suggestions
    ∧ ("嘘，嗡鸣在墙后回响。" : String).length ≤ 30 :=
  ⟨by decide, suggestions_length_le_30 ⟨[], [], 8⟩ false (Except.error ()) _ (by decide)⟩

/-- C5: with no provider client, an absent or empty player_message gets
the fixed sentence, and a non-empty player_message m gets the fixed
template with m embedded verbatim. -/
theorem chat_noclient_replies (req : ChatRequest) (call : Except Unit (Option String)) :
    ((req.player_message = none ∨ req.player_message = some "") →
      api_chat req false call = ⟨"我听见了，但风暴不会等人。"⟩)
    ∧ (∀ m : String, req.player_message = some m → m ≠ "" →
      api_chat req false call = ⟨"明白：" ++ m ++ "。但命运仍在推进。"⟩) := by
  constructor
  · rintro (h | h) <;> simp [api_chat, pyOrStr, h]
  · rintro m h hm
    simp [api_chat, pyOrStr, h, hm]

/-- C5 witness: the fixed sentence for an absent message, and the
template at the concrete message "run". -/
theorem chat_noclient_replies_witness :
    api_chat ⟨[], [], none⟩ false (Except.error ()) = ⟨"我听见了，但风暴不会等人。"⟩
    ∧ api_chat ⟨[], [], some "run"⟩ false (Except.error ())
      = ⟨"明白：run。但命运仍在推进。"⟩ :=
  ⟨(chat_noclient_replies ⟨[], [], none⟩ (Except.error ())).1 (Or.inl rfl),
   (chat_noclient_replies ⟨[], [], some "run"⟩ (Except.error ())).2 "run" rfl (by decide)⟩

/-- C6 counterexample: the per-field default for t ("此刻") is the same
text as the total-failure triple's t, so the per-field default texts do
not all differ from the total-failure triple's texts. -/
theorem voice_defaults_counterexample :
    ¬ ((api_voice ⟨"", [], []⟩ true (Except.ok (JVal.jobj []))).world_event.t
        ≠ (api_voice ⟨"", [], []⟩ true (Except.error ())).world_event.t) := by decide

/-- C6 (amended): a total failure returns the fixed triple (此刻,
风停一瞬, …); a successfully parsed object with missing fields gets each
field independently defaulted (t to 此刻, title to 微弱回声, desc to
空气里…), per-field rather than all-or-nothing; the title and desc
default texts differ from the total-failure triple's title and desc (so
the two fallback triples are distinct), while the t default text equals
the total-failure t. -/
theorem voice_two_fallbacks (req : VoiceRequest) :
    api_voice req true (Except.error ())
      = ⟨⟨"此刻", "风停一瞬", "像是被谁按下了暂停键，所有人都稍稍屏住了气。"⟩⟩
    ∧ api_voice req true (Except.ok (JVal.jobj []))
      = ⟨⟨"此刻", "微弱回声", "空气里浮起一阵细响，又迅速归于平静。"⟩⟩
    ∧ api_voice req true (Except.ok (JVal.jobj [("title", JVal.jstr "标")]))
      = ⟨⟨"此刻", "标", "空气里浮起一阵细响，又迅速归于平静。"⟩⟩
    ∧ ("微弱回声" : String) ≠ "风停一瞬"
    ∧ ("空气里浮起一阵细响，又迅速归于平静。" : String)
        ≠ "像是被谁按下了暂停键，所有人都稍稍屏住了气。"
    ∧ ("此刻" : String) = "此刻" :=
  ⟨rfl, rfl, rfl, by decide, by decide, rfl⟩

/-- C7: the prompt builder renders only the first 8 events (by array
position) each as a line "- t · title · desc", joined by newlines, and
returns the literal no-world-events marker on an empty list. -/
theorem world_context_format (evs : List PyDict) :
    build_world_context ([] : List PyDict) = "(无世界事件)"
    ∧ (evs ≠ [] → build_world_context evs
        = String.intercalate "\n" ((evs.take 8).map renderEvent))
    ∧ build_world_context evs = build_world_context (evs.take 8) := by
  refine ⟨rfl, ?_, ?_⟩
  · intro h
    cases evs with
    | nil => exact absurd rfl h
    | cons e rest => rfl
  · unfold build_world_context
    cases evs with
    | nil => rfl
    | cons e rest => simp [List.take_take]

/-- C7 witness: a singleton event list renders as its single line. -/
theorem world_context_format_witness :
    build_world_context [[("t", JVal.jstr "黄昏")]]
      = String.intercalate "\n" (([[("t", JVal.jstr "黄昏")]].take 8).map renderEvent) :=
  (world_context_format [[("t", JVal.jstr "黄昏")]]).2.1 (List.cons_ne_nil _ _)

/-- C8: on the provider path, when the parsed object's "suggestions"
value is a list of arbitrary JSON values, the handler takes the success
branch: each element is coerced by str() (pyStr) and then truncated to
30 code points, and the list is truncated to the clamped n — the
fallback branch is never triggered by non-string elements. -/
theorem suggestions_coerce_any_type (req : SuggestionRequest) (xs : List JVal) :
    api_suggestions req true (Except.ok (JVal.jobj [("suggestions", JVal.jarr xs)]))
      = ⟨(xs.map (fun s => pyTrunc (pyStr s) 30)).take (max 1 (min 8 req.n)).toNat⟩ :=
  rfl

/-- C9: the voice per-field default fires whenever the parsed value is
falsy — null, "", 0 and false are falsy — so e.g. a title bound to any
falsy value is replaced by the default title just as an absent key is;
an object with a falsy title is handled exactly like the empty object. -/
theorem voice_falsy_defaults (req : VoiceRequest) (kvs : List (String × JVal))
    (v : JVal) (hv : pyTruthy v = false) :
    (api_voice req true (Except.ok (JVal.jobj (("title", v) :: kvs)))).world_event.title
      = "微弱回声"
    ∧ api_voice req true (Except.ok (JVal.jobj [("title", v)]))
      = api_voice req true (Except.ok (JVal.jobj []))
    ∧ pyTruthy JVal.jnull = false
    ∧ pyTruthy (JVal.jstr "") = false
    ∧ pyTruthy (JVal.jnum 0) = false
    ∧ pyTruthy (JVal.jbool false) = false := by
  refine ⟨?_, ?_, rfl, by decide, by decide, rfl⟩
  · show strOrDefault (dictGet (("title", v) :: kvs) "title") "微弱回声" = _
    simp [dictGet, strOrDefault, hv]
  · have h1 : dictGet [("title", v)] "t" = none := rfl
    have h2 : dictGet [("title", v)] "title" = some v := rfl
    have h3 : dictGet [("title", v)] "desc" = none := rfl
    simp [api_voice, h1, h2, h3, strOrDefault, hv, dictGet]

/-- C9 witness: a returned title of "" is falsy and gets the default
title. -/
theorem voice_falsy_defaults_witness :
    pyTruthy (JVal.jstr "") = false
    ∧ (api_voice ⟨"", [], []⟩ true
        (Except.ok (JVal.jobj [("title", JVal.jstr "")]))).world_event.title
      = "微弱回声" :=
  ⟨by decide, (voice_falsy_defaults ⟨"", [], []⟩ [] (JVal.jstr "") (by decide)).1⟩

/-- C10: the prompt builder is total on events lacking keys: a missing
t renders as "?", a missing title or desc renders as the empty string,
and such an event still contributes exactly one line to the joined
output. -/
theorem world_context_missing_keys (ev : PyDict) (rest : List PyDict) :
    (dictGet ev "t" = none → evStr ev "t" "?" = "?")
    ∧ (dictGet ev "title" = none → evStr ev "title" "" = "")
    ∧ (dictGet ev "desc" = none → evStr ev "desc" "" = "")
    ∧ renderEvent ev = "- " ++ evStr ev "t" "?" ++ " · " ++ evStr ev "title" ""
        ++ " · " ++ evStr ev "desc" ""
    ∧ build_world_context (ev :: rest)
        = String.intercalate "\n" (renderEvent ev :: (rest.take 7).map renderEvent) := by
  refine ⟨?_, ?_, ?_, rfl, rfl⟩
  · intro h; simp [evStr, h]
  · intro h; simp [evStr, h]
  · intro h; simp [evStr, h]

/-- C10 witness: the empty event dictionary lacks every key, renders
with the defaults, and the builder still emits its line. -/
theorem world_context_missing_keys_witness :
    evStr ([] : PyDict) "t" "?" = "?"
    ∧ evStr ([] : PyDict) "title" "" = ""
    ∧ evStr ([] : PyDict) "desc" "" = ""
    ∧ build_world_context [([] : PyDict)] = "- ? ·  · " :=
  ⟨(world_context_missing_keys [] []).1 rfl,
   (world_context_missing_keys [] []).2.1 rfl,
   (world_context_missing_keys [] []).2.2.1 rfl,
   by decide⟩
